import Mathlib

/-!
Shallow embedding of the `POST /transcribe` pipeline of `src/backend/main.py`
(the `transcribe_audio` route handler together with the registered exception
handlers and the `log_requests` middleware), and proofs of the specification
claims about it.

Modelling conventions:
* the multipart upload is an `UploadFile` (filename and declared content type,
  both untrusted) plus the list of successive non-empty chunk reads that
  `await file.read(1024 * 1024)` would yield before EOF;
* the external transcription engine (`model.transcribe`) is an opaque
  `EngineBehavior`: it either returns a result dictionary or raises an
  exception carrying a message string;
* exceptions are explicit values: the route body produces a `HandlerOutcome`
  (a returned response, a raised classified error, or an uncaught exception),
  which the exception-handler / middleware layer turns into a `WireResponse`;
* filesystem effects are tracked explicitly: whether the transient file was
  allocated, how many bytes were written to it, and whether it still exists
  after the `finally` cleanup block ran (`unlinkOk` says whether `os.unlink`
  succeeds in the environment).
-/

namespace AudioTranscriber

/-- 1 MiB: the fixed read chunk size of `file.read(1024 * 1024)` (main.py line 194). -/
def CHUNK_SIZE : Nat := 1024 * 1024

/-- 1 GiB: the upload size ceiling of the check `file_size > 1024 * 1024 * 1024`
(main.py line 196). -/
def MAX_FILE_SIZE : Nat := 1024 * 1024 * 1024

/-- Index of the last occurrence of `c`, scanning left to right and keeping the
latest hit; `-1` when absent.  Mirrors Python `str.rfind`. -/
def rfindAux (c : Char) : List Char → Nat → Int → Int
  | [], _, acc => acc
  | x :: xs, i, acc => rfindAux c xs (i + 1) (if x = c then (i : Int) else acc)

/-- Python `p.rfind(c)`: last index of `c` in `p`, or `-1`. -/
def rfind (c : Char) (p : List Char) : Int := rfindAux c p 0 (-1)

/-- The extension component `os.path.splitext(p)[1]` (posixpath algorithm):
everything from the last dot on, provided that dot lies after the last path
separator and some non-dot character stands between the separator and it
(leading dots of the basename never start an extension). -/
def splitextExt (p : List Char) : List Char :=
  let sepIndex := rfind '/' p
  let dotIndex := rfind '.' p
  if sepIndex < dotIndex then
    let start := (sepIndex + 1).toNat
    let stop := dotIndex.toNat
    if ((p.drop start).take (stop - start)).any (fun ch => ch ≠ '.') then p.drop stop
    else []
  else []

/-- Python `str.lower()` (ASCII letters; the code only compares ASCII extension
and media-type strings). -/
def strLower (s : String) : String := String.mk (s.toList.map Char.toLower)

/-- `os.path.splitext(filename)[1].lower()` (main.py line 162). -/
def extLower (filename : String) : String :=
  String.mk ((splitextExt filename.toList).map Char.toLower)

/-- Does `hay` start with `needle`? -/
def listStartsWith : List Char → List Char → Bool
  | [], _ => true
  | _ :: _, [] => false
  | a :: as, b :: bs => a = b && listStartsWith as bs

/-- Does `needle` occur contiguously inside `hay`? -/
def listHasSub (needle : List Char) : List Char → Bool
  | [] => needle.isEmpty
  | b :: bs => listStartsWith needle (b :: bs) || listHasSub needle bs

/-- Python substring test `needle in hay`. -/
def hasSubstr (needle hay : String) : Bool := listHasSub needle.toList hay.toList

/-- The `allowed_extensions` dictionary (main.py lines 165 to 172): each allowed
extension with its list of acceptable declared content types. -/
def allowed_extensions : List (String × List String) :=
  [(".mp3", ["audio/mpeg", "audio/mp3"]),
   (".wav", ["audio/wav", "audio/wave", "audio/x-wav", "audio/webm"]),
   (".m4a", ["audio/m4a", "audio/mp4", "audio/x-m4a"]),
   (".ogg", ["audio/ogg", "audio/vorbis"]),
   (".flac", ["audio/flac", "audio/x-flac"]),
   ("", ["audio/wav", "audio/webm"])]

/-- The upload as the handler sees it: `file.filename` and `file.content_type`
are both `Optional[str]` on a FastAPI `UploadFile`. -/
structure UploadFile where
  filename : Option String
  content_type : Option String
deriving DecidableEq

/-- One timed segment of the engine result: a dictionary carrying an `end`
timestamp (`result["segments"][-1]["end"]`, main.py line 218).  Timestamps are
modelled as rationals; the pipeline only copies them, it never computes with
them. -/
structure Segment where
  endTime : Rat
deriving DecidableEq

/-- The engine result dictionary.  `text = none` models a missing `text` key
(`result.get("text")` is `None`); `segments = none` models a missing `segments`
key, whose lookup `result["segments"]` raises a `KeyError`. -/
structure WhisperResult where
  text : Option String
  segments : Option (List Segment)
deriving DecidableEq

/-- What `model.transcribe(path)` does on this request: return a result (which
may be `None`) or raise an exception with message `msg`. -/
inductive EngineBehavior where
  | ok (result : Option WhisperResult)
  | raise (msg : String)
deriving DecidableEq

/-- The two classified exception types of main.py: `FileValidationError` and
`AudioProcessingError`, each carrying `message`, `status_code`, `error_code`
(lines 24 to 38). -/
inductive PipelineErr where
  | fileValidation (message : String) (status_code : Nat) (error_code : String)
  | audioProcessing (message : String) (status_code : Nat) (error_code : String)
deriving DecidableEq

/-- How the `transcribe_audio` body ends: a returned `TranscriptionResponse`, a
raised classified error (caught by the registered exception handlers), or an
exception of an unregistered type escaping the handler. -/
inductive HandlerOutcome where
  | ok (text : String) (duration : Rat)
  | err (e : PipelineErr)
  | uncaught (msg : String)
deriving DecidableEq

/-- The wire-level response: HTTP status plus either the success body fields
(`text`, `duration`) or the error body fields (`detail`, `error_code`). -/
structure WireResponse where
  status : Nat
  body_text : Option String
  body_duration : Option Rat
  detail : Option String
  error_code : Option String
deriving DecidableEq

/-- The structured log events the claims talk about (content-type mismatch
warning, line 181; file-processed info, line 204; success info, line 221;
unexpected-error log with the correlation id, line 241; cleanup logs, lines
256 and 258). -/
inductive LogEvent where
  | contentTypeMismatch (requestId ct ext : String)
  | fileProcessed (requestId : String) (size : Nat)
  | transcriptionOk (requestId : String)
  | unexpectedError (requestId excMsg : String)
  | cleanupOk (requestId : String)
  | cleanupFailed (requestId : String)
deriving DecidableEq

/-- Everything observable about one request: the wire response plus the fate of
the transient file and the emitted log events. -/
structure RunResult where
  response : WireResponse
  tempAllocated : Bool
  tempExistsAfter : Bool
  bytesWritten : Nat
  chunksConsumed : Nat
  logs : List LogEvent
deriving DecidableEq

/-- One request environment: the upload (or `none` when the multipart body has
no file field), the chunk reads the stream yields, an optional read fault
raised by `file.read` after those chunks, the engine behavior, whether
`os.unlink` succeeds during cleanup, and the correlation id `request_id`
generated at entry (main.py line 152). -/
structure Env where
  file : Option UploadFile
  chunks : List Nat
  readFault : Option String
  engine : EngineBehavior
  unlinkOk : Bool
  requestId : String
deriving DecidableEq

/-- How the streaming loop ended: clean EOF, or the `FILE_TOO_LARGE` abort. -/
inductive StreamStatus where
  | done
  | tooLarge
deriving DecidableEq

/-- Observable state of the streaming loop on exit: the `file_size` counter,
bytes actually written to the transient file, chunks consumed from the stream,
and how the loop ended. -/
structure StreamOut where
  fileSize : Nat
  written : Nat
  consumed : Nat
  status : StreamStatus
deriving DecidableEq

/-- The streaming loop (main.py lines 194 to 201): for each non-empty chunk,
add its length to `file_size`, abort with `FILE_TOO_LARGE` if the total now
exceeds the ceiling, otherwise write the chunk and continue. -/
def streamLoop : List Nat → Nat → Nat → Nat → StreamOut
  | [], size, written, consumed => ⟨size, written, consumed, .done⟩
  | c :: rest, size, written, consumed =>
    if MAX_FILE_SIZE < size + c then ⟨size + c, written, consumed + 1, .tooLarge⟩
    else streamLoop rest (size + c) (written + c) (consumed + 1)

/-- `str(e)` of the `AudioProcessingError` raised at line 211. -/
def apeNoSpeechMessage : String := "No speech detected in audio"

/-- `str(e)` of the `KeyError` raised by `result["segments"]` when the result
dictionary has no `segments` key: Python renders it as the quoted key name.
All the classification at line 228 does with it is test for the
`No such file` marker, which it does not contain. -/
def keyErrorSegmentsMessage : String := "segments"

/-- The `"No such file" in str(e)` test of main.py line 228. -/
def containsNoSuchFile (msg : String) : Bool := hasSubstr "No such file" msg

/-- `result["segments"][-1]["end"] if result["segments"] else 0`
(main.py line 218), given that the `segments` key is present. -/
def durationOf (segs : List Segment) : Rat :=
  match segs.getLast? with
  | none => 0
  | some s => s.endTime

/-- The inner `try` body (main.py lines 207 to 225): run the engine; raise the
no-speech error when the result is falsy or its `text` is missing or empty;
look up `segments` (a `KeyError` when missing); otherwise build the success
value.  Every raised exception is reported as `Except.error` with its
`str(e)`, exactly what the inner `except Exception as e` at line 227 sees. -/
def tryTranscribe : EngineBehavior → Except String (String × Rat)
  | .raise m => .error m
  | .ok none => .error apeNoSpeechMessage
  | .ok (some r) =>
    match r.text with
    | none => .error apeNoSpeechMessage
    | some t =>
      if t = "" then .error apeNoSpeechMessage
      else
        match r.segments with
        | none => .error keyErrorSegmentsMessage
        | some segs => .ok (t, durationOf segs)

/-- The inner `except Exception as e` classification (main.py lines 227 to
236): a message containing `No such file` becomes `FILE_READ_ERROR`
(validation class, default status 400); anything else becomes
`TRANSCRIPTION_ERROR` (processing class, default status 400). -/
def classifyEngineExc (msg : String) : PipelineErr :=
  if containsNoSuchFile msg then
    .fileValidation "Failed to read audio file" 400 "FILE_READ_ERROR"
  else
    .audioProcessing
      "Failed to transcribe audio. Please ensure the file contains valid audio content."
      400 "TRANSCRIPTION_ERROR"

/-- The error raised at main.py lines 245 to 249 for any unclassified
exception reaching the outer `except Exception`. -/
def apeProcessing : PipelineErr :=
  .audioProcessing "An unexpected error occurred while processing the audio"
    500 "PROCESSING_ERROR"

/-- The error raised at main.py lines 197 to 200 when the size ceiling is
crossed. -/
def fveTooLarge : PipelineErr :=
  .fileValidation "File size exceeds 1GB limit" 400 "FILE_TOO_LARGE"

/-- The error raised at main.py lines 175 to 178 for a disallowed extension. -/
def fveUnsupported : PipelineErr :=
  .fileValidation "Unsupported file format. Supported formats: MP3, WAV, M4A, OGG, FLAC"
    400 "UNSUPPORTED_FORMAT"

/-- What the registered handlers put on the wire for each handler outcome:
`AudioProcessingError` and `FileValidationError` handlers (main.py lines 74 to
94) echo the carried status, message and code; an exception of any other type
escapes to the `log_requests` middleware (lines 57 to 72), whose `except`
block sees no response yet and answers 500 `INTERNAL_SERVER_ERROR`. -/
def wireOf : HandlerOutcome → WireResponse
  | .ok t d => ⟨200, some t, some d, none, none⟩
  | .err (.fileValidation m sc code) => ⟨sc, none, none, some m, some code⟩
  | .err (.audioProcessing m sc code) => ⟨sc, none, none, some m, some code⟩
  | .uncaught _ => ⟨500, none, none, some "Internal server error", some "INTERNAL_SERVER_ERROR"⟩

/-- The `finally` cleanup log (main.py lines 256 and 258): the `try` around
`os.unlink` logs success, and logs — but swallows — a deletion failure. -/
def cleanupLog (env : Env) : LogEvent :=
  if env.unlinkOk then .cleanupOk env.requestId else .cleanupFailed env.requestId

/-- Leaving the outer `try` with outcome `out` after the transient file was
allocated and `s` describes the streaming state: the `finally` block (main.py
lines 251 to 258) deletes the file when `os.unlink` succeeds, and on a
deletion failure logs it and leaves the file behind; in both cases the
primary outcome `out` is what reaches the wire. -/
def finish (env : Env) (s : StreamOut) (out : HandlerOutcome)
    (logsBefore : List LogEvent) : RunResult :=
  { response := wireOf out
    tempAllocated := true
    tempExistsAfter := !env.unlinkOk
    bytesWritten := s.written
    chunksConsumed := s.consumed
    logs := logsBefore ++ [cleanupLog env] }

/-- The content-type advisory check (main.py lines 180 to 184): with a
non-empty declared type that no acceptable type occurs in (Python `in` is a
substring test), a warning is logged; nothing is ever rejected here. -/
def warnLogs (requestId content_type file_ext : String) (cts : List String) :
    List LogEvent :=
  if content_type = "" then []
  else if cts.any (fun ct => hasSubstr ct content_type) then []
  else [.contentTypeMismatch requestId content_type file_ext]

/-- The body of the outer `try` from the transient-file allocation on (main.py
lines 188 to 258): stream the chunks; a ceiling abort raises
`FILE_TOO_LARGE`; a read fault is an unclassified exception that the outer
`except Exception` (lines 240 to 249) logs with the correlation id and
re-labels `PROCESSING_ERROR`; otherwise the engine stage runs and its result
or classified failure is the outcome.  Every branch passes through `finish`,
the `finally` cleanup. -/
def afterAlloc (env : Env) (warn : List LogEvent) : RunResult :=
  let s := streamLoop env.chunks 0 0 0
  match s.status with
  | .tooLarge => finish env s (.err fveTooLarge) warn
  | .done =>
    match env.readFault with
    | some m =>
      finish env s (.err apeProcessing) (warn ++ [.unexpectedError env.requestId m])
    | none =>
      match tryTranscribe env.engine with
      | .ok (t, d) =>
        finish env s (.ok t d)
          (warn ++ [.fileProcessed env.requestId s.fileSize,
                    .transcriptionOk env.requestId])
      | .error m =>
        finish env s (.err (classifyEngineExc m))
          (warn ++ [.fileProcessed env.requestId s.fileSize])

/-- `str(e)` of the `TypeError` that `os.path.splitext(None)` raises at
main.py line 162 when the upload has no filename. -/
def typeErrorMessage : String := "expected str, bytes or os.PathLike object, not NoneType"

/-- A run on which no transient file was ever allocated. -/
def noTemp (r : WireResponse) : RunResult := ⟨r, false, false, 0, 0, []⟩

/-- The `transcribe_audio` route handler (main.py lines 150 to 258) for a
present `UploadFile`.  The `if not file` guard at line 155 is skipped: an
`UploadFile` instance defines no truthiness override, so it is always truthy
and that branch cannot fire.  A `None` filename makes `os.path.splitext`
raise a `TypeError` before the `try` block, so no transient file exists yet
and nothing catches it inside the handler.  A disallowed extension raises
`FileValidationError UNSUPPORTED_FORMAT`, still before any allocation or
read.  Otherwise the content-type advisory warning is (possibly) logged and
the allocation / streaming / engine phase runs. -/
def transcribe_audio (env : Env) (uf : UploadFile) : RunResult :=
  match uf.filename with
  | none => noTemp (wireOf (.uncaught typeErrorMessage))
  | some fname =>
    let file_ext := extLower fname
    let content_type := (uf.content_type.map strLower).getD ""
    match allowed_extensions.lookup file_ext with
    | none => noTemp (wireOf (.err fveUnsupported))
    | some cts => afterAlloc env (warnLogs env.requestId content_type file_ext cts)

/-- Modelled from the spec: the dispatch step of the HTTP framework, which is
not part of src.  A multipart body with no file field never reaches
`transcribe_audio`; per the spec (scenario: upload with no file field →
expect 422, `error_code=VALIDATION_ERROR`) the framework raises a
request-validation error, which the registered `validation_exception_handler`
(main.py lines 96 to 106) shapes into this response. -/
def missingFileResponse : WireResponse :=
  ⟨422, none, none, some "Invalid request format", some "VALIDATION_ERROR"⟩

/-- One full request against `POST /transcribe`: framework dispatch, then the
route handler. -/
def runRequest (env : Env) : RunResult :=
  match env.file with
  | none => noTemp missingFileResponse
  | some uf => transcribe_audio env uf

/-- The success shape of an engine result: a present result dictionary with a
non-empty `text` and a present `segments` key. -/
def engineSuccessShape : EngineBehavior → Bool
  | .ok (some r) =>
    (match r.text with
     | some t => !(t == "")
     | none => false) && r.segments.isSome
  | _ => false

/-- The same request with the declared content type replaced: used to state
that the declared type can never change the wire response. -/
def withContentType (env : Env) (ct : Option String) : Env :=
  { env with file := env.file.map (fun uf => { uf with content_type := ct }) }

/-! ### Concrete request environments used to instantiate the claims -/

/-- The happy path of the spec scenario: a valid `test.wav` upload whose
engine result is the mock `{text: "This is a test transcription",
segments: [{end: 10.5}]}`. -/
def envHappy : Env :=
  ⟨some ⟨some "test.wav", some "audio/wav"⟩, [44144], none,
   .ok (some ⟨some "This is a test transcription", some [⟨(21 : Rat) / 2⟩]⟩),
   true, "req-1"⟩

/-- The engine returns empty text with no segments (the no-speech scenario). -/
def envEmptyText : Env :=
  ⟨some ⟨some "test.wav", some "audio/wav"⟩, [1000], none,
   .ok (some ⟨some "", some []⟩), true, "req-2"⟩

/-- An upload of 1025 chunks of 1 MiB: one full chunk past the 1 GiB ceiling. -/
def envTooBig : Env :=
  ⟨some ⟨some "big.wav", some "audio/wav"⟩, List.replicate 1025 CHUNK_SIZE, none,
   .ok none, true, "req-3"⟩

/-- An upper-case extension with a mismatched declared content type. -/
def envUpper : Env :=
  ⟨some ⟨some "Recording.WAV", some "video/mp4"⟩, [10], none, .ok none, true, "req-5"⟩

/-- The engine raises a file-not-found condition. -/
def envEngineBoom : Env :=
  ⟨some ⟨some "a.mp3", some "audio/mpeg"⟩, [3], none,
   .raise "No such file or directory", true, "req-6"⟩

/-- The upload stream faults after its chunks: an unclassified exception. -/
def envReadFault : Env :=
  ⟨some ⟨some "b.ogg", none⟩, [7], some "disk error", .ok none, true, "req-7"⟩

/-- An upload whose `UploadFile` carries no filename. -/
def envNoFilename : Env :=
  ⟨some ⟨none, some "audio/wav"⟩, [5], none, .ok none, true, "req-8"⟩

/-- A request whose multipart body has no file field at all. -/
def envNoFile : Env := ⟨none, [], none, .ok none, true, "req-9"⟩

/-- The engine result has non-empty text but no `segments` key. -/
def envNoSegs : Env :=
  ⟨some ⟨some "c.flac", some "audio/flac"⟩, [9], none,
   .ok (some ⟨some "hello", none⟩), true, "req-10"⟩

/-! ### Lemmas about the streaming loop -/

/-- When the whole stream fits under the ceiling, the loop reads everything,
writes everything, and ends cleanly. -/
theorem streamLoop_done_of (chunks : List Nat) :
    ∀ size w k, size + chunks.sum ≤ MAX_FILE_SIZE →
      streamLoop chunks size w k =
        ⟨size + chunks.sum, w + chunks.sum, k + chunks.length, .done⟩ := by
  induction chunks with
  | nil => intro size w k _; simp [streamLoop]
  | cons c rest ih =>
    intro size w k h
    have hc : ¬ MAX_FILE_SIZE < size + c := by
      simp only [List.sum_cons] at h; omega
    have hrest : (size + c) + rest.sum ≤ MAX_FILE_SIZE := by
      simp only [List.sum_cons] at h; omega
    have := ih (size + c) (w + c) (k + 1) hrest
    simp only [streamLoop, if_neg hc, this, List.sum_cons, List.length_cons,
      StreamOut.mk.injEq]
    refine ⟨by omega, by omega, by omega, trivial⟩

/-- When the stream as a whole would cross the ceiling, the loop aborts at the
first chunk `j` whose cumulative total exceeds it: it consumes exactly `j`
chunks, has written only the first `j - 1`, and flags `tooLarge`. -/
theorem streamLoop_tooLarge_spec (chunks : List Nat) :
    ∀ size w k, size ≤ MAX_FILE_SIZE → MAX_FILE_SIZE < size + chunks.sum →
      ∃ j, 1 ≤ j ∧ j ≤ chunks.length ∧
        streamLoop chunks size w k =
          ⟨size + (chunks.take j).sum, w + (chunks.take (j - 1)).sum, k + j, .tooLarge⟩ ∧
        MAX_FILE_SIZE < size + (chunks.take j).sum ∧
        size + (chunks.take (j - 1)).sum ≤ MAX_FILE_SIZE := by
  induction chunks with
  | nil => intro size w k hle hgt; simp at hgt; omega
  | cons c rest ih =>
    intro size w k hle hgt
    by_cases hc : MAX_FILE_SIZE < size + c
    · refine ⟨1, le_refl 1, by simp, ?_, by simpa using hc, by simpa using hle⟩
      simp [streamLoop, if_pos hc]
    · have hle' : size + c ≤ MAX_FILE_SIZE := by omega
      have hgt' : MAX_FILE_SIZE < (size + c) + rest.sum := by
        simp only [List.sum_cons] at hgt; omega
      obtain ⟨j, hj1, hjlen, heq, hlt, hsle⟩ := ih (size + c) (w + c) (k + 1) hle' hgt'
      obtain ⟨i, rfl⟩ : ∃ i, j = i + 1 := ⟨j - 1, by omega⟩
      have e2 : i + 1 - 1 = i := by omega
      rw [e2] at heq hsle
      have e3 : i + 2 = (i + 1) + 1 := rfl
      refine ⟨i + 2, by omega, by simpa using (by omega : i + 1 ≤ rest.length), ?_, ?_, ?_⟩
      · have e1 : i + 2 - 1 = i + 1 := by omega
        simp only [e1, e3, streamLoop, if_neg hc, heq, List.take_succ_cons,
          List.sum_cons, StreamOut.mk.injEq]
        refine ⟨by omega, by omega, by omega, trivial⟩
      · simp only [e3, List.take_succ_cons, List.sum_cons]
        omega
      · have e1 : i + 2 - 1 = i + 1 := by omega
        simp only [e1, List.take_succ_cons, List.sum_cons]
        omega

/-! ### Reduction lemmas for the pipeline -/

/-- With a present file, a present filename and an allowed extension, the
request reduces to the allocation / streaming / engine phase. -/
theorem runRequest_afterAlloc (env : Env) (uf : UploadFile) (fname : String)
    (cts : List String) (hf : env.file = some uf) (hn : uf.filename = some fname)
    (hl : allowed_extensions.lookup (extLower fname) = some cts) :
    runRequest env =
      afterAlloc env
        (warnLogs env.requestId ((uf.content_type.map strLower).getD "")
          (extLower fname) cts) := by
  simp [runRequest, transcribe_audio, hf, hn, hl]

/-- Streaming fits under the ceiling and the read then faults: the outer
`except Exception` path. -/
theorem afterAlloc_readFault (env : Env) (warn : List LogEvent) (m : String)
    (hsz : env.chunks.sum ≤ MAX_FILE_SIZE) (hrf : env.readFault = some m) :
    afterAlloc env warn =
      finish env ⟨env.chunks.sum, env.chunks.sum, env.chunks.length, .done⟩
        (.err apeProcessing) (warn ++ [.unexpectedError env.requestId m]) := by
  have h := streamLoop_done_of env.chunks 0 0 0 (by simpa using hsz)
  simp only [Nat.zero_add] at h
  simp [afterAlloc, h, hrf]

/-- Streaming fits under the ceiling, the read does not fault, and the engine
stage raises `m`: the inner classification path. -/
theorem afterAlloc_engineErr (env : Env) (warn : List LogEvent) (m : String)
    (hsz : env.chunks.sum ≤ MAX_FILE_SIZE) (hrf : env.readFault = none)
    (hT : tryTranscribe env.engine = .error m) :
    afterAlloc env warn =
      finish env ⟨env.chunks.sum, env.chunks.sum, env.chunks.length, .done⟩
        (.err (classifyEngineExc m))
        (warn ++ [.fileProcessed env.requestId env.chunks.sum]) := by
  have h := streamLoop_done_of env.chunks 0 0 0 (by simpa using hsz)
  simp only [Nat.zero_add] at h
  simp [afterAlloc, h, hrf, hT]

/-- Streaming fits under the ceiling, the read does not fault, and the engine
stage succeeds: the success path. -/
theorem afterAlloc_engineOk (env : Env) (warn : List LogEvent) (t : String) (d : Rat)
    (hsz : env.chunks.sum ≤ MAX_FILE_SIZE) (hrf : env.readFault = none)
    (hT : tryTranscribe env.engine = .ok (t, d)) :
    afterAlloc env warn =
      finish env ⟨env.chunks.sum, env.chunks.sum, env.chunks.length, .done⟩
        (.ok t d)
        (warn ++ [.fileProcessed env.requestId env.chunks.sum,
                  .transcriptionOk env.requestId]) := by
  have h := streamLoop_done_of env.chunks 0 0 0 (by simpa using hsz)
  simp only [Nat.zero_add] at h
  simp [afterAlloc, h, hrf, hT]

/-- After the allocation phase ran, the transient file was allocated, it
survives exactly when `os.unlink` failed, and the cleanup step was logged. -/
theorem afterAlloc_fields (env : Env) (warn : List LogEvent) :
    (afterAlloc env warn).tempAllocated = true ∧
    (afterAlloc env warn).tempExistsAfter = !env.unlinkOk ∧
    cleanupLog env ∈ (afterAlloc env warn).logs := by
  simp only [afterAlloc]
  cases (streamLoop env.chunks 0 0 0).status
  · cases env.readFault
    · rcases tryTranscribe env.engine with m | ⟨t, d⟩ <;> simp [finish]
    · simp [finish]
  · simp [finish]

/-- The wire response of the allocation phase does not depend on whether the
cleanup deletion succeeds. -/
theorem afterAlloc_response_unlink (env : Env) (warn : List LogEvent) :
    (afterAlloc env warn).response = (afterAlloc { env with unlinkOk := true } warn).response := by
  obtain ⟨f, ch, rf, eng, u, rid⟩ := env
  simp only [afterAlloc]
  cases (streamLoop ch 0 0 0).status
  · cases rf
    · rcases tryTranscribe eng with m | ⟨t, d⟩ <;> simp [finish]
    · simp [finish]
  · simp [finish]

/-- Every wire response the model can produce: the framework 422, the
uncaught-`TypeError` 500, one of the three pre-engine classified errors, an
engine-stage classification, or a success carrying an engine value. -/
theorem runRequest_shape (env : Env) :
    (runRequest env).response = missingFileResponse ∨
    (runRequest env).response = wireOf (.uncaught typeErrorMessage) ∨
    (runRequest env).response = wireOf (.err fveUnsupported) ∨
    (runRequest env).response = wireOf (.err fveTooLarge) ∨
    (runRequest env).response = wireOf (.err apeProcessing) ∨
    (∃ m, (runRequest env).response = wireOf (.err (classifyEngineExc m))) ∨
    (∃ t d, (runRequest env).response = wireOf (.ok t d) ∧
      tryTranscribe env.engine = .ok (t, d)) := by
  obtain ⟨f, ch, rf, eng, u, rid⟩ := env
  cases f with
  | none => left; simp [runRequest, noTemp]
  | some uf =>
    cases hn : uf.filename with
    | none =>
      right; left; simp [runRequest, transcribe_audio, hn, noTemp]
    | some fname =>
      cases hl : allowed_extensions.lookup (extLower fname) with
      | none =>
        right; right; left; simp [runRequest, transcribe_audio, hn, hl, noTemp]
      | some cts =>
        simp only [runRequest, transcribe_audio, hn, hl, afterAlloc]
        cases (streamLoop ch 0 0 0).status
        · cases rf
          · rcases hT : tryTranscribe eng with m | ⟨t, d⟩
            · refine Or.inr (Or.inr (Or.inr (Or.inr (Or.inr (Or.inl ⟨m, ?_⟩)))));
              simp [finish]
            · refine Or.inr (Or.inr (Or.inr (Or.inr (Or.inr (Or.inr ⟨t, d, ?_, rfl⟩)))))
              simp [finish]
          · refine Or.inr (Or.inr (Or.inr (Or.inr (Or.inl ?_))))
            simp [finish]
        · refine Or.inr (Or.inr (Or.inr (Or.inl ?_)))
          simp [finish]

/-- The engine-stage classification only ever produces the two codes of
main.py lines 227 to 236. -/
theorem classifyEngineExc_cases (m : String) :
    classifyEngineExc m =
      .fileValidation "Failed to read audio file" 400 "FILE_READ_ERROR" ∨
    classifyEngineExc m =
      .audioProcessing
        "Failed to transcribe audio. Please ensure the file contains valid audio content."
        400 "TRANSCRIPTION_ERROR" := by
  unfold classifyEngineExc
  by_cases h : containsNoSuchFile m = true
  · left; rw [if_pos h]
  · right; rw [if_neg h]

/-- A successful inner `try` forces the engine result to have the success
shape: present dictionary, non-empty `text`, present `segments`. -/
theorem tryTranscribe_ok_shape {e : EngineBehavior} {v : String × Rat}
    (h : tryTranscribe e = .ok v) : engineSuccessShape e = true := by
  cases e with
  | raise m => simp [tryTranscribe] at h
  | ok r =>
    cases r with
    | none => simp [tryTranscribe] at h
    | some res =>
      obtain ⟨text, segs⟩ := res
      cases text with
      | none => simp [tryTranscribe] at h
      | some t =>
        by_cases ht : t = ""
        · simp [tryTranscribe, ht] at h
        · cases segs with
          | none => simp [tryTranscribe, ht] at h
          | some ss => simp [engineSuccessShape, ht]

/-- No reachable wire response carries `NO_SPEECH_DETECTED` (the error built
at main.py line 211 is swallowed by the `except Exception` of line 227) and
none carries `NO_FILE_ERROR` (the guard at line 155 cannot fire). -/
theorem runRequest_code_not (env : Env) :
    (runRequest env).response.error_code ≠ some "NO_SPEECH_DETECTED" ∧
    (runRequest env).response.error_code ≠ some "NO_FILE_ERROR" := by
  rcases runRequest_shape env with h | h | h | h | h | ⟨m, h⟩ | ⟨t, d, h, _⟩ <;>
    rw [h]
  · exact ⟨by decide, by decide⟩
  · exact ⟨by decide, by decide⟩
  · exact ⟨by decide, by decide⟩
  · exact ⟨by decide, by decide⟩
  · exact ⟨by decide, by decide⟩
  · rcases classifyEngineExc_cases m with hc | hc <;> rw [hc] <;>
      exact ⟨by decide, by decide⟩
  · exact ⟨by simp [wireOf], by simp [wireOf]⟩

/-- A 200 response is only produced from an engine result of the success
shape. -/
theorem runRequest_status200 (env : Env) :
    (runRequest env).response.status = 200 → engineSuccessShape env.engine = true := by
  intro hs
  rcases runRequest_shape env with h | h | h | h | h | ⟨m, h⟩ | ⟨t, d, h, hT⟩
  · rw [h] at hs; exact absurd hs (by decide)
  · rw [h] at hs; exact absurd hs (by decide)
  · rw [h] at hs; exact absurd hs (by decide)
  · rw [h] at hs; exact absurd hs (by decide)
  · rw [h] at hs; exact absurd hs (by decide)
  · rcases classifyEngineExc_cases m with hc | hc <;> rw [hc] at h <;>
      rw [h] at hs <;> exact absurd hs (by decide)
  · exact tryTranscribe_ok_shape hT

/-- The allocation phase can only answer with one of the four error codes
raised at or after line 188, or with a success (no error code). -/
theorem afterAlloc_code_cases (env : Env) (warn : List LogEvent) :
    (afterAlloc env warn).response.error_code = some "FILE_TOO_LARGE" ∨
    (afterAlloc env warn).response.error_code = some "PROCESSING_ERROR" ∨
    (afterAlloc env warn).response.error_code = some "FILE_READ_ERROR" ∨
    (afterAlloc env warn).response.error_code = some "TRANSCRIPTION_ERROR" ∨
    (afterAlloc env warn).response.error_code = none := by
  simp only [afterAlloc]
  cases (streamLoop env.chunks 0 0 0).status
  · cases env.readFault
    · rcases tryTranscribe env.engine with m | ⟨t, d⟩
      · rcases classifyEngineExc_cases m with hc | hc <;>
          simp [finish, hc, wireOf]
      · simp [finish, wireOf]
    · simp [finish, wireOf, apeProcessing]
  · simp [finish, wireOf, fveTooLarge]

/-- The wire response of the allocation phase depends only on the stream, the
read fault, and the engine — not on the upload metadata, the warning logs, or
the cleanup environment. -/
theorem afterAlloc_response_eq (env env2 : Env) (warn warn2 : List LogEvent)
    (hch : env2.chunks = env.chunks) (hrf : env2.readFault = env.readFault)
    (heng : env2.engine = env.engine) :
    (afterAlloc env2 warn2).response = (afterAlloc env warn).response := by
  simp only [afterAlloc, hch, hrf, heng]
  cases (streamLoop env.chunks 0 0 0).status
  · cases env.readFault
    · rcases tryTranscribe env.engine with m | ⟨t, d⟩ <;> simp [finish]
    · simp [finish]
  · simp [finish]

/-- Log events emitted before the allocation survive into the final log. -/
theorem afterAlloc_warn_mem (env : Env) (warn : List LogEvent) (e : LogEvent)
    (he : e ∈ warn) : e ∈ (afterAlloc env warn).logs := by
  simp only [afterAlloc]
  cases (streamLoop env.chunks 0 0 0).status
  · cases env.readFault
    · rcases tryTranscribe env.engine with m | ⟨t, d⟩ <;> simp [finish, he]
    · simp [finish, he]
  · simp [finish, he]

/-! ### The claims -/

/-- C1: for every request in which a transient file was allocated, the file
does not exist on disk after the pipeline returns, on every exit path
(success, classified error, or unexpected exception) — provided the deletion
step itself succeeds; and a failure of the deletion step is suppressed: it is
logged, and the wire response is identical to the one produced when deletion
succeeds, so it never replaces or masks the primary result or error. -/
theorem transient_file_cleanup (env : Env) :
    (runRequest env).response = (runRequest { env with unlinkOk := true }).response ∧
    (env.unlinkOk = true → (runRequest env).tempExistsAfter = false) ∧
    ((runRequest env).tempAllocated = false → (runRequest env).tempExistsAfter = false) ∧
    (env.unlinkOk = false → (runRequest env).tempAllocated = true →
      LogEvent.cleanupFailed env.requestId ∈ (runRequest env).logs) := by
  obtain ⟨f, ch, rf, eng, u, rid⟩ := env
  cases f with
  | none =>
    refine ⟨rfl, fun _ => rfl, fun _ => rfl, fun _ h => ?_⟩
    exact absurd h (by simp [runRequest, noTemp])
  | some uf =>
    cases hn : uf.filename with
    | none =>
      refine ⟨?_, fun _ => ?_, fun _ => ?_, fun _ h => ?_⟩ <;>
        simp_all [runRequest, transcribe_audio, hn, noTemp]
    | some fname =>
      cases hl : allowed_extensions.lookup (extLower fname) with
      | none =>
        have hr : ∀ u2, runRequest (Env.mk (some uf) ch rf eng u2 rid) =
            noTemp (wireOf (.err fveUnsupported)) := fun u2 => by
          simp only [runRequest, transcribe_audio, hn, hl]
        refine ⟨?_, ?_, ?_, ?_⟩
        · rw [hr, hr]
        · intro _; rw [hr]; rfl
        · intro _; rw [hr]; rfl
        · intro _ h
          rw [hr] at h
          simp [noTemp] at h
      | some cts =>
        simp only [runRequest, transcribe_audio, hn, hl]
        refine ⟨afterAlloc_response_unlink _ _, ?_, ?_, ?_⟩
        · intro hu
          rw [(afterAlloc_fields _ _).2.1]
          simp [hu]
        · intro h
          rw [(afterAlloc_fields _ _).1] at h
          cases h
        · intro hu _
          have hm := (afterAlloc_fields (Env.mk (some uf) ch rf eng u rid)
            (warnLogs rid ((uf.content_type.map strLower).getD "") (extLower fname) cts)).2.2
          simpa [cleanupLog, hu] using hm

/-- C1 witness: on the happy-path request the transient file was allocated
and no longer exists after the pipeline returns. -/
theorem transient_file_cleanup_witness :
    envHappy.unlinkOk = true ∧ (runRequest envHappy).tempAllocated = true ∧
    (runRequest envHappy).tempExistsAfter = false :=
  ⟨rfl, rfl, (transient_file_cleanup envHappy).2.1 rfl⟩

/-- C2 (a code bug relative to the claim): when the engine returns empty text
the pipeline does fail with a 4xx status, but the `NO_SPEECH_DETECTED` error
raised at main.py line 211 is caught by the `except Exception` of line 227
and re-labeled `TRANSCRIPTION_ERROR`; no reachable wire response ever carries
`NO_SPEECH_DETECTED`. -/
theorem no_speech_relabelled :
    (runRequest envEmptyText).response.status = 400 ∧
    (runRequest envEmptyText).response.error_code = some "TRANSCRIPTION_ERROR" ∧
    ∀ env : Env,
      ((runRequest env).response.error_code == some "NO_SPEECH_DETECTED") = false :=
  ⟨by decide, by decide,
   fun env => beq_eq_false_iff_ne.mpr (runRequest_code_not env).1⟩

/-- C3: an upload whose cumulative byte count exceeds the 1 GiB ceiling aborts
at the chunk that crosses the boundary (the consumed prefix crosses it, the
prefix one shorter does not), reads no further chunks, answers 400 with
`FILE_TOO_LARGE`, and writes at most ceiling + one chunk size bytes (in fact
at most the ceiling, since the size check precedes the write). -/
theorem oversize_upload_aborts (env : Env) (uf : UploadFile) (fname : String)
    (cts : List String)
    (hf : env.file = some uf) (hn : uf.filename = some fname)
    (hl : allowed_extensions.lookup (extLower fname) = some cts)
    (hbig : MAX_FILE_SIZE < env.chunks.sum) :
    (runRequest env).response.status = 400 ∧
    (runRequest env).response.error_code = some "FILE_TOO_LARGE" ∧
    (runRequest env).bytesWritten ≤ MAX_FILE_SIZE + CHUNK_SIZE ∧
    (runRequest env).chunksConsumed ≤ env.chunks.length ∧
    MAX_FILE_SIZE < (env.chunks.take (runRequest env).chunksConsumed).sum ∧
    (env.chunks.take ((runRequest env).chunksConsumed - 1)).sum ≤ MAX_FILE_SIZE := by
  obtain ⟨j, hj1, hjlen, heq, hlt, hsle⟩ :=
    streamLoop_tooLarge_spec env.chunks 0 0 0 (Nat.zero_le _) (by simpa using hbig)
  simp only [Nat.zero_add] at heq hlt hsle
  rw [runRequest_afterAlloc env uf fname cts hf hn hl]
  simp only [afterAlloc, heq, finish, wireOf, fveTooLarge]
  refine ⟨?_, ?_, by omega, hjlen, hlt, hsle⟩ <;> trivial

set_option maxRecDepth 8000 in
/-- C3 witness: 1025 chunks of 1 MiB cross the ceiling and are rejected with
`FILE_TOO_LARGE`. -/
theorem oversize_upload_aborts_witness :
    MAX_FILE_SIZE < envTooBig.chunks.sum ∧
    (runRequest envTooBig).response.status = 400 ∧
    (runRequest envTooBig).response.error_code = some "FILE_TOO_LARGE" :=
  have h := oversize_upload_aborts envTooBig ⟨some "big.wav", some "audio/wav"⟩
    "big.wav" ["audio/wav", "audio/wave", "audio/x-wav", "audio/webm"]
    rfl rfl (by decide) (by decide)
  ⟨by decide, h.1, h.2.1⟩

/-- C4: when the engine returns non-empty text with a `segments` list, the
response is 200 with the engine text and with duration the end timestamp of
the last segment; an empty segments list yields duration 0. -/
theorem success_response (env : Env) (uf : UploadFile) (fname t : String)
    (segs : List Segment) (cts : List String)
    (hf : env.file = some uf) (hn : uf.filename = some fname)
    (hl : allowed_extensions.lookup (extLower fname) = some cts)
    (hsz : env.chunks.sum ≤ MAX_FILE_SIZE) (hrf : env.readFault = none)
    (heng : env.engine = .ok (some ⟨some t, some segs⟩)) (ht : t ≠ "") :
    (runRequest env).response = ⟨200, some t, some (durationOf segs), none, none⟩ ∧
    (segs = [] → durationOf segs = 0) := by
  have hT : tryTranscribe env.engine = .ok (t, durationOf segs) := by
    rw [heng]; simp [tryTranscribe, ht]
  rw [runRequest_afterAlloc env uf fname cts hf hn hl,
    afterAlloc_engineOk env _ t (durationOf segs) hsz hrf hT]
  exact ⟨rfl, fun hs => by simp [durationOf, hs]⟩

/-- C4 witness: the spec scenario returns
`200 {"text": "This is a test transcription", "duration": 10.5}`. -/
theorem success_response_witness :
    (runRequest envHappy).response =
      ⟨200, some "This is a test transcription", some ((21 : Rat) / 2), none, none⟩ :=
  (success_response envHappy ⟨some "test.wav", some "audio/wav"⟩ "test.wav"
    "This is a test transcription" [⟨(21 : Rat) / 2⟩]
    ["audio/wav", "audio/wave", "audio/x-wav", "audio/webm"]
    rfl rfl (by decide) (by decide) rfl rfl (by decide)).1

/-- C5: for an upload with a filename, the lower-cased extension decides
rejection: the response carries `UNSUPPORTED_FORMAT` (with status 400)
exactly when the extension is outside the allow-list; the declared content
type never changes the wire response, and a non-empty declared type matching
none of the extension's acceptable types is logged as a warning. -/
theorem format_validation (env : Env) (uf : UploadFile) (fname : String)
    (hf : env.file = some uf) (hn : uf.filename = some fname) :
    ((runRequest env).response.error_code = some "UNSUPPORTED_FORMAT" ↔
      allowed_extensions.lookup (extLower fname) = none) ∧
    (allowed_extensions.lookup (extLower fname) = none →
      (runRequest env).response.status = 400) ∧
    (∀ ct, (runRequest (withContentType env ct)).response = (runRequest env).response) ∧
    (∀ cts ctRaw, allowed_extensions.lookup (extLower fname) = some cts →
      uf.content_type = some ctRaw → strLower ctRaw ≠ "" →
      cts.any (fun c => hasSubstr c (strLower ctRaw)) = false →
      LogEvent.contentTypeMismatch env.requestId (strLower ctRaw) (extLower fname) ∈
        (runRequest env).logs) := by
  cases hl : allowed_extensions.lookup (extLower fname) with
  | none =>
    have hr : runRequest env = noTemp (wireOf (.err fveUnsupported)) := by
      simp [runRequest, transcribe_audio, hf, hn, hl]
    refine ⟨?_, fun _ => ?_, fun ct => ?_, fun cts ctRaw hcts => ?_⟩
    · rw [hr]; simp [noTemp, wireOf, fveUnsupported]
    · rw [hr]; rfl
    · have hf2 : (withContentType env ct).file = some { uf with content_type := ct } := by
        simp [withContentType, hf]
      have hr2 : runRequest (withContentType env ct) =
          noTemp (wireOf (.err fveUnsupported)) := by
        simp [runRequest, transcribe_audio, hf2, hn, hl]
      rw [hr, hr2]
    · exact Option.noConfusion hcts
  | some cts =>
    have hr := runRequest_afterAlloc env uf fname cts hf hn hl
    refine ⟨⟨?_, fun hnone => ?_⟩, fun hnone => ?_,
      fun ct => ?_, fun cts2 ctRaw hcts hctRaw hne hany => ?_⟩
    · intro hcode
      rw [hr] at hcode
      rcases afterAlloc_code_cases env
          (warnLogs env.requestId ((uf.content_type.map strLower).getD "")
            (extLower fname) cts) with h | h | h | h | h <;>
        rw [h] at hcode <;> exact absurd hcode (by decide)
    · exact Option.noConfusion hnone
    · exact Option.noConfusion hnone
    · have hf2 : (withContentType env ct).file = some { uf with content_type := ct } := by
        simp [withContentType, hf]
      have hr2 := runRequest_afterAlloc (withContentType env ct)
        { uf with content_type := ct } fname cts hf2 hn hl
      rw [hr, hr2]
      exact afterAlloc_response_eq env (withContentType env ct) _ _ rfl rfl rfl
    · injection hcts with hc2
      subst hc2
      rw [hr]
      apply afterAlloc_warn_mem
      rw [hctRaw]
      simp [warnLogs, hne, hany]

/-- C5 witness: `Recording.WAV` is accepted (upper-case extension,
lower-cased to `.wav`), and its mismatched declared type `video/mp4` is
logged as a warning, not rejected. -/
theorem format_validation_witness :
    (runRequest envUpper).response.error_code ≠ some "UNSUPPORTED_FORMAT" ∧
    LogEvent.contentTypeMismatch "req-5" "video/mp4" ".wav" ∈ (runRequest envUpper).logs :=
  have h := format_validation envUpper ⟨some "Recording.WAV", some "video/mp4"⟩
    "Recording.WAV" rfl rfl
  ⟨fun hc => absurd (h.1.mp hc) (by decide),
   h.2.2.2 ["audio/wav", "audio/wave", "audio/x-wav", "audio/webm"] "video/mp4"
     (by decide) rfl (by decide) (by decide)⟩

/-- C6: an exception raised by the engine invocation whose message carries
the file-not-found marker `No such file` is re-labeled as the
validation-class `FILE_READ_ERROR` (status 400); any other engine exception
becomes `TRANSCRIPTION_ERROR` (status 400). -/
theorem engine_exception_classified (env : Env) (uf : UploadFile) (fname m : String)
    (cts : List String)
    (hf : env.file = some uf) (hn : uf.filename = some fname)
    (hl : allowed_extensions.lookup (extLower fname) = some cts)
    (hsz : env.chunks.sum ≤ MAX_FILE_SIZE) (hrf : env.readFault = none)
    (heng : env.engine = .raise m) :
    (runRequest env).response.status = 400 ∧
    (containsNoSuchFile m = true →
      (runRequest env).response.error_code = some "FILE_READ_ERROR") ∧
    (containsNoSuchFile m = false →
      (runRequest env).response.error_code = some "TRANSCRIPTION_ERROR") := by
  have hT : tryTranscribe env.engine = .error m := by rw [heng]; rfl
  rw [runRequest_afterAlloc env uf fname cts hf hn hl,
    afterAlloc_engineErr env _ m hsz hrf hT]
  by_cases hc : containsNoSuchFile m = true
  · refine ⟨?_, fun _ => ?_, fun hfalse => absurd hc (by simp [hfalse])⟩ <;>
      simp [finish, wireOf, classifyEngineExc, hc]
  · have hc2 : containsNoSuchFile m = false := by
      cases h2 : containsNoSuchFile m
      · rfl
      · exact absurd h2 hc
    refine ⟨?_, fun htrue => absurd htrue (by simp [hc2]), fun _ => ?_⟩ <;>
      simp [finish, wireOf, classifyEngineExc, hc2]

/-- C6 witness: a raised `No such file or directory` answers 400
`FILE_READ_ERROR`. -/
theorem engine_exception_classified_witness :
    containsNoSuchFile "No such file or directory" = true ∧
    (runRequest envEngineBoom).response.status = 400 ∧
    (runRequest envEngineBoom).response.error_code = some "FILE_READ_ERROR" :=
  have h := engine_exception_classified envEngineBoom ⟨some "a.mp3", some "audio/mpeg"⟩
    "a.mp3" "No such file or directory" ["audio/mpeg", "audio/mp3"] rfl rfl
    (by decide) (by decide) rfl rfl
  ⟨by decide, h.1, h.2.1 (by decide)⟩

/-- C7: an exception inside the pipeline that is not one of the classified
error types (here: a read fault) is re-shaped at the pipeline boundary into
status 500, code `PROCESSING_ERROR`, with a fixed generic message carrying no
text of the original exception, while the correlation identifier is logged
together with the original message. -/
theorem unclassified_fault_shaped (env : Env) (uf : UploadFile) (fname m : String)
    (cts : List String)
    (hf : env.file = some uf) (hn : uf.filename = some fname)
    (hl : allowed_extensions.lookup (extLower fname) = some cts)
    (hsz : env.chunks.sum ≤ MAX_FILE_SIZE) (hrf : env.readFault = some m) :
    (runRequest env).response.status = 500 ∧
    (runRequest env).response.error_code = some "PROCESSING_ERROR" ∧
    (runRequest env).response.detail =
      some "An unexpected error occurred while processing the audio" ∧
    LogEvent.unexpectedError env.requestId m ∈ (runRequest env).logs := by
  rw [runRequest_afterAlloc env uf fname cts hf hn hl,
    afterAlloc_readFault env _ m hsz hrf]
  refine ⟨rfl, rfl, rfl, ?_⟩
  simp [finish]

/-- C7 witness: a `disk error` read fault answers 500 `PROCESSING_ERROR` and
is logged with the request correlation id. -/
theorem unclassified_fault_shaped_witness :
    (runRequest envReadFault).response.status = 500 ∧
    (runRequest envReadFault).response.error_code = some "PROCESSING_ERROR" ∧
    LogEvent.unexpectedError "req-7" "disk error" ∈ (runRequest envReadFault).logs :=
  have h := unclassified_fault_shaped envReadFault ⟨some "b.ogg", none⟩ "b.ogg"
    "disk error" ["audio/ogg", "audio/vorbis"] rfl rfl (by decide) (by decide) rfl
  ⟨h.1, h.2.1, h.2.2.2⟩

/-- C8 counterexample: an upload whose `UploadFile` has no filename is not
rejected with `UNSUPPORTED_FORMAT` — the `TypeError` from
`os.path.splitext(None)` escapes uncaught and surfaces as a 500
`INTERNAL_SERVER_ERROR` (though indeed no body chunk is read). -/
theorem missing_filename_counterexample :
    (runRequest envNoFilename).response.error_code ≠ some "UNSUPPORTED_FORMAT" ∧
    (runRequest envNoFilename).response.status = 500 ∧
    (runRequest envNoFilename).response.error_code = some "INTERNAL_SERVER_ERROR" ∧
    (runRequest envNoFilename).chunksConsumed = 0 :=
  ⟨by decide, by decide, by decide, by decide⟩

/-- C8 amended: an upload whose filename is missing makes the
extension-splitting step raise an uncaught `TypeError`, surfacing as a 500
`INTERNAL_SERVER_ERROR` response before any byte of the body is read and
before any transient file is allocated. -/
theorem missing_filename_uncaught (env : Env) (uf : UploadFile)
    (hf : env.file = some uf) (hn : uf.filename = none) :
    (runRequest env).response.status = 500 ∧
    (runRequest env).response.error_code = some "INTERNAL_SERVER_ERROR" ∧
    (runRequest env).chunksConsumed = 0 ∧
    (runRequest env).bytesWritten = 0 ∧
    (runRequest env).tempAllocated = false := by
  have hr : runRequest env = noTemp (wireOf (.uncaught typeErrorMessage)) := by
    simp [runRequest, transcribe_audio, hf, hn]
  rw [hr]
  exact ⟨rfl, rfl, rfl, rfl, rfl⟩

/-- C8 witness for the amended statement. -/
theorem missing_filename_uncaught_witness :
    (runRequest envNoFilename).response.status = 500 ∧
    (runRequest envNoFilename).tempAllocated = false :=
  have h := missing_filename_uncaught envNoFilename ⟨none, some "audio/wav"⟩ rfl rfl
  ⟨h.1, h.2.2.2.2⟩

/-- C9 counterexample: a request with no file field is answered 422
`VALIDATION_ERROR` by the framework validation layer, not 400
`NO_FILE_ERROR`. -/
theorem missing_file_counterexample :
    ¬ ((runRequest envNoFile).response.status = 400 ∧
       (runRequest envNoFile).response.error_code = some "NO_FILE_ERROR") ∧
    (runRequest envNoFile).response.status = 422 ∧
    (runRequest envNoFile).response.error_code = some "VALIDATION_ERROR" :=
  ⟨by decide, by decide, by decide⟩

/-- C9 amended: a request with a missing file field is rejected with 422
`VALIDATION_ERROR` (the framework validation response shaped by
`validation_exception_handler`); the handler's own `NO_FILE_ERROR` branch is
unreachable, so no response ever carries `NO_FILE_ERROR`. -/
theorem missing_file_validation (env : Env) (hf : env.file = none) :
    (runRequest env).response.status = 422 ∧
    (runRequest env).response.error_code = some "VALIDATION_ERROR" ∧
    ∀ env2 : Env, (runRequest env2).response.error_code ≠ some "NO_FILE_ERROR" := by
  have hr : runRequest env = noTemp missingFileResponse := by
    simp [runRequest, hf]
  rw [hr]
  exact ⟨rfl, rfl, fun env2 => (runRequest_code_not env2).2⟩

/-- C9 witness for the amended statement. -/
theorem missing_file_validation_witness :
    (runRequest envNoFile).response.status = 422 ∧
    (runRequest envNoFile).response.error_code = some "VALIDATION_ERROR" :=
  have h := missing_file_validation envNoFile rfl
  ⟨h.1, h.2.1⟩

/-- C10: an engine result with non-empty text but no `segments` key does not
crash and is not a success: the `KeyError` is caught by the inner
classification and answered 400 `TRANSCRIPTION_ERROR`; moreover a 200
response is only ever produced from an engine result with non-empty text and
a present segments list. -/
theorem missing_segments_classified (env : Env) (uf : UploadFile) (fname t : String)
    (cts : List String)
    (hf : env.file = some uf) (hn : uf.filename = some fname)
    (hl : allowed_extensions.lookup (extLower fname) = some cts)
    (hsz : env.chunks.sum ≤ MAX_FILE_SIZE) (hrf : env.readFault = none)
    (heng : env.engine = .ok (some ⟨some t, none⟩)) (ht : t ≠ "") :
    (runRequest env).response.status = 400 ∧
    (runRequest env).response.error_code = some "TRANSCRIPTION_ERROR" ∧
    ∀ env2 : Env, (runRequest env2).response.status = 200 →
      engineSuccessShape env2.engine = true := by
  have hT : tryTranscribe env.engine = .error keyErrorSegmentsMessage := by
    rw [heng]; simp [tryTranscribe, ht]
  have hc : containsNoSuchFile keyErrorSegmentsMessage = false := by decide
  rw [runRequest_afterAlloc env uf fname cts hf hn hl,
    afterAlloc_engineErr env _ _ hsz hrf hT]
  refine ⟨?_, ?_, fun env2 => runRequest_status200 env2⟩ <;>
    simp [finish, wireOf, classifyEngineExc, hc]

/-- C10 witness: non-empty text with a missing segments key answers 400
`TRANSCRIPTION_ERROR`. -/
theorem missing_segments_classified_witness :
    (runRequest envNoSegs).response.status = 400 ∧
    (runRequest envNoSegs).response.error_code = some "TRANSCRIPTION_ERROR" :=
  have h := missing_segments_classified envNoSegs ⟨some "c.flac", some "audio/flac"⟩
    "c.flac" "hello" ["audio/flac", "audio/x-flac"] rfl rfl (by decide) (by decide)
    rfl rfl (by decide)
  ⟨h.1, h.2.1⟩

end AudioTranscriber
